import Mathlib

/-!
Verification of `src/pdf/omni/operators.py`.

The script holds a hard-coded table `adobe_lines` of PDF operator
descriptions, parses each row with the Python regular expression
`RE_LINE = re.compile(r'^(.*?)\s+(.*?)(\d+)?$')` applied via `.search`,
and prints a Go map literal to standard output.

The embedding below models:
  * the character classes `\s` and `\d` of the `re` module
    (`\s` is given by the ASCII whitespace characters plus the common
    Unicode whitespace the module accepts; `\d` is modelled as the decimal
    digits 0-9 — the table data is pure ASCII, so the further Unicode
    digits `\d` would accept never occur);
  * the backtracking search of the pattern, operator by operator:
    a lazy first group `(.*?)` whose `.` does not match a newline,
    a mandatory greedy run `\s+`, a lazy second group `(.*?)`,
    a greedy optional third group `(\d+)?`, and `$`, which in Python
    matches at the end of the string or just before a final newline.
    Since the pattern starts with `^` and `re.MULTILINE` is not set,
    `.search` succeeds exactly when the anchored match at position 0
    succeeds;
  * the data table, the `%3d`-formatted emission loop and the framing
    `print` statements of the module body.  A loop iteration in which
    `RE_LINE.search(line)` returns `None` would raise `AttributeError`
    on `m.group(1)`; this failure path is modelled by `Option.none`.
-/

set_option maxRecDepth 16384
set_option maxHeartbeats 2000000

namespace OmniOperators

/-- Python `\s` character class, restricted to the characters the `re`
module accepts that can be written here: the six ASCII whitespace
characters and the usual Unicode whitespace.  The table rows only ever
contain a plain space. -/
def pyIsSpace (c : Char) : Bool :=
  c == ' ' || c == '\t' || c == '\n' || c == '\x0b' || c == '\x0c' || c == '\r'
  || c == '\x1c' || c == '\x1d' || c == '\x1e' || c == '\x1f'
  || c == '\x85' || c == '\xa0' || c == '\u1680'
  || ('\u2000' ≤ c && c ≤ '\u200a')
  || c == '\u2028' || c == '\u2029' || c == '\u202f' || c == '\u205f' || c == '\u3000'

/-- Python `\d`, modelled as the ASCII decimal digits (the table is ASCII). -/
def pyIsDigit (c : Char) : Bool :=
  c.isDigit

/-- Python `$` (without `re.MULTILINE`): matches at the end of the string
or just before a newline that is the final character. -/
def dollarAt (cs : List Char) : Bool :=
  cs.isEmpty || cs == ['\n']

/-- Matching `\d+$` against the suffix `cs`: the greedy `\d+` takes the
maximal digit prefix.  (Backtracking to a shorter digit run can never
help: the rest would then start with a digit, and neither `$` position —
end of string or a final newline — starts with a digit.)  Returns the
captured digit run. -/
def digitsEnd (cs : List Char) : Option (List Char) :=
  let ds := cs.takeWhile pyIsDigit
  if ds.isEmpty then none
  else if dollarAt (cs.dropWhile pyIsDigit) then some ds
  else none

/-- Matching `(\d+)?$` against the suffix `cs`.  The optional group is
greedy: the branch that matches `\d+` is tried before the empty branch.
Returns the third capture group (`none` when the group did not
participate, like `m.group(3) is None`). -/
def matchOptDigitsEnd (cs : List Char) : Option (Option (List Char)) :=
  match digitsEnd cs with
  | some ds => some (some ds)
  | none => if dollarAt cs then some none else none

/-- Matching `(.*?)(\d+)?$` against the suffix `cs`.  The lazy `(.*?)`
tries the empty match first and grows one character at a time; `.` does
not match a newline.  Returns the second and third capture groups. -/
def matchG2From : List Char → Option (List Char × Option (List Char))
  | [] =>
    match matchOptDigitsEnd [] with
    | some g3 => some ([], g3)
    | none => none
  | c :: rest =>
    match matchOptDigitsEnd (c :: rest) with
    | some g3 => some ([], g3)
    | none =>
      if c == '\n' then none
      else
        match matchG2From rest with
        | some (g2, g3) => some (c :: g2, g3)
        | none => none

/-- Matching `\s*(.*?)(\d+)?$` against the suffix `cs`, where the leading
`\s*` is the greedy remainder of the preceding `\s+`: while the head is
whitespace, consuming it is tried first, and stopping the run here is
tried only if that fails. -/
def matchAfterSpaces : List Char → Option (List Char × Option (List Char))
  | [] => matchG2From []
  | c :: rest =>
    if pyIsSpace c then
      match matchAfterSpaces rest with
      | some r => some r
      | none => matchG2From (c :: rest)
    else matchG2From (c :: rest)

/-- Matching `\s+(.*?)(\d+)?$` against the suffix `cs`: at least one
whitespace character is mandatory, the rest of the run is greedy. -/
def matchSpacePlus : List Char → Option (List Char × Option (List Char))
  | [] => none
  | c :: rest => if pyIsSpace c then matchAfterSpaces rest else none

/-- The anchored match of `^(.*?)\s+(.*?)(\d+)?$` at position 0.  The lazy
first group tries the empty prefix first and grows one (non-newline)
character at a time; at each split the remainder `\s+(.*?)(\d+)?$` is
attempted.  Returns the three capture groups. -/
def matchG1From : List Char → Option (List Char × List Char × Option (List Char))
  | [] =>
    match matchSpacePlus [] with
    | some (g2, g3) => some ([], g2, g3)
    | none => none
  | c :: rest =>
    match matchSpacePlus (c :: rest) with
    | some (g2, g3) => some ([], g2, g3)
    | none =>
      if c == '\n' then none
      else
        match matchG1From rest with
        | some (g1, g2, g3) => some (c :: g1, g2, g3)
        | none => none

/-- `RE_LINE.search(s)` for `RE_LINE = re.compile(r'^(.*?)\s+(.*?)(\d+)?$')`:
since the pattern is anchored with `^` and `re.MULTILINE` is not set, the
scan of `.search` can only succeed at position 0.  `none` models a `None`
match object; otherwise the three capture groups are returned
(`m.group(1)`, `m.group(2)`, `m.group(3)`). -/
def RE_LINE_search (s : String) : Option (String × String × Option String) :=
  match matchG1From s.data with
  | some (g1, g2, g3) => some (String.mk g1, String.mk g2, g3.map String.mk)
  | none => none

/-- The hard-coded table of the script (the commented-out front-matter
rows of the Python source are comments there too, hence not elements). -/
def adobe_lines : List String := [
    "b closepath, fill, stroke Close, fill, and stroke path using nonzero winding number rule 60",
    "B fill, stroke Fill and stroke path using nonzero winding number rule 60",
    "b* closepath, eofill, stroke Close, fill, and stroke path using even-odd rule 60",
    "B* eofill, stroke Fill and stroke path using even-odd rule 60",
    "BDC (PDF 1.2) Begin marked-content sequence with property list 320",
    "BI Begin inline image object 92",
    "BMC (PDF 1.2) Begin marked-content sequence 320",
    "BT Begin text object 107",
    "BX (PDF 1.1) Begin compatibility section 32",
    "c curveto Append curved segment to path (three control points) 59",
    "cm concat Concatenate matrix to current transformation matrix 57",
    "CS setcolorspace (PDF 1.1) Set color space for stroking operations 74",
    "cs setcolorspace (PDF 1.1) Set color space for nonstroking operations 74",
    "d setdash Set line dash pattern 57",
    "d0 setcharwidth Set glyph width in Type 3 font 113",
    "d1 setcachedevice Set glyph width and bounding box in Type 3 font 113",
    "Do Invoke named XObject 87",
    "DP (PDF 1.2) Define marked-content point with property list 320",
    "EI End inline image object 92",
    "EMC (PDF 1.2) End marked-content sequence 320",
    "ET End text object 107",
    "EX (PDF 1.1) End compatibility section 32",
    "f fill Fill path using nonzero winding number rule 60",
    "F fill Fill path using nonzero winding number rule (obsolete) 60",
    "f* eofill Fill path using even-odd rule 60",
    "G setgray Set gray level for stroking operations 74",
    "g setgray Set gray level for nonstroking operations 74",
    "gs (PDF 1.2) Set parameters from graphics state parameter dictionary 57",
    "h closepath Close subpath 59",
    "i setflat Set flatness tolerance 57",
    "ID Begin inline image data 92",
    "j setlinejoin Set line join style 57",
    "J setlinecap Set line cap style 57",
    "K setcmykcolor Set CMYK color for stroking operations 74",
    "k setcmykcolor Set CMYK color for nonstroking operations 74",
    "l lineto Append straight line segment to path 59",
    "m moveto Begin new subpath 59",
    "M setmiterlimit Set miter limit 57",
    "MP (PDF 1.2) Define marked-content point 320",
    "n End path without filling or stroking 60",
    "q gsave Save graphics state 57",
    "Q grestore Restore graphics state 57",
    "re Append rectangle to path 59",
    "RG setrgbcolor Set RGB color for stroking operations 74",
    "rg setrgbcolor Set RGB color for nonstroking operations 74",
    "ri Set color rendering intent 57",
    "s closepath, stroke Close and stroke path 60",
    "S stroke Stroke path 60",
    "SC setcolor (PDF 1.1) Set color for stroking operations 74",
    "sc setcolor (PDF 1.1) Set color for nonstroking operations 74",
    "SCN setcolor (PDF 1.2) Set color for stroking operations (ICCBased and special colour spaces) 74",
    "scn setcolor (PDF 1.2) Set color for nonstroking operations (ICCBased and special colour spaces) 74",
    "sh shfill (PDF 1.3) Paint area defined by shading pattern 77",
    "T* Move to start of next text line 108",
    "Tc Set character spacing",
    "Td Move text position 108",
    "TD Move text position and set leading 108",
    "Tf selectfont Set text font and size",
    "Tj show Show text 109",
    "TJ Show text, allowing individual glyph positioning 109",
    "TL Set text leading",
    "Tm Set text matrix and text line matrix 108",
    "Tr Set text rendering mode",
    "Ts Set text rise",
    "Tw Set word spacing",
    "Tz Set horizontal text scaling",
    "v curveto Append curved segment to path (initial point replicated) 59",
    "w setlinewidth Set line width 57",
    "W clip Set clipping path using nonzero winding number rule 61",
    "W* eoclip Set clipping path using even-odd rule 61",
    "y curveto Append curved segment to path (final point replicated) 59",
    "\x27 Move to next line and show text 109",
    "\" Set word and character spacing, move to next line, and show text 109"
]

/-- Python `'%3d' % i` for a natural number: decimal digits,
right-justified with spaces to a minimum width of 3. -/
def formatI3 (n : Nat) : String :=
  let s := toString n
  if s.length < 3 then String.mk (List.replicate (3 - s.length) ' ') ++ s else s

/-- One iteration of the emission loop:
`print('\t`%s`: false,  // %3d: %s' % (m.group(1), i, m.group(2)))`.
`none` models the `AttributeError` raised on `m.group(1)` when
`RE_LINE.search(line)` returned `None`. -/
def emitLine (i : Nat) (line : String) : Option String :=
  match RE_LINE_search line with
  | some (g1, g2, _) =>
    some ("\t`" ++ g1 ++ "`: false,  // " ++ formatI3 i ++ ": " ++ g2)
  | none => none

/-- The emission loop `for i, line in enumerate(adobe_lines)` started at
index `i`, producing the emitted lines in table order; `none` models the
loop raising on some row. -/
def emitRows : Nat → List String → Option (List String)
  | _, [] => some []
  | i, l :: ls =>
    match emitLine i l with
    | some out =>
      match emitRows (i + 1) ls with
      | some rest => some (out :: rest)
      | none => none
    | none => none

/-- Everything the module body writes to standard output, as a list of
lines, in order: the `'%d lines'` count line, the literal header
`var markingOperators = map[string]bool\x7b`, one line per table row, and
the closing `\x7d`.  `none` models the run raising an uncaught exception
(nonzero exit) instead of terminating normally with exit code 0. -/
def programOutput : Option (List String) :=
  match emitRows 0 adobe_lines with
  | some rows =>
    some ((toString adobe_lines.length ++ " lines")
      :: "var markingOperators = map[string]bool\x7b"
      :: (rows ++ ["\x7d"]))
  | none => none

/-- Modelled from the spec: the per-row emission template of section 6
item 3 — a backtick-quoted operator name, a colon, the literal value
`false,`, two spaces, `//`, the zero-based row index right-justified to 3
columns, a colon, a space, and the parsed middle text — amended with the
leading tab character the code actually prints. -/
def rowLineTemplate (i : Nat) (name middle : String) : String :=
  "\t" ++ "`" ++ name ++ "`: false,  // " ++ formatI3 i ++ ": " ++ middle

/-- Refinement check for the emission loop over the shipped table: the
loop succeeds, emits exactly one line per table row, in table order, and
row `i` of the output is the template applied to row `i` of the table. -/
def emitMatchesTemplate : Bool :=
  match emitRows 0 adobe_lines with
  | none => false
  | some rows =>
    rows.length == adobe_lines.length &&
    (List.range adobe_lines.length).all fun i =>
      match RE_LINE_search (adobe_lines.getD i "") with
      | some (g1, g2, _) => rows.getD i "" == rowLineTemplate i g1 g2
      | none => false

/-- Unfolding equation for `matchSpacePlus` on a nonempty suffix. -/
theorem matchSpacePlus_cons (c : Char) (rest : List Char) :
    matchSpacePlus (c :: rest) =
      if pyIsSpace c then matchAfterSpaces rest else none := rfl

/-- Unfolding equation for `matchG1From` on the empty string: `\s+` cannot
be satisfied, so there is no match. -/
theorem matchG1From_nil : matchG1From [] = none := rfl

/-- Unfolding equation for `matchG1From` on a nonempty string: the lazy
first group tries the empty prefix first, then grows by one character. -/
theorem matchG1From_cons (c : Char) (rest : List Char) :
    matchG1From (c :: rest) =
      match matchSpacePlus (c :: rest) with
      | some (g2, g3) => some ([], g2, g3)
      | none =>
        if c == '\n' then none
        else
          match matchG1From rest with
          | some (g1, g2, g3) => some (c :: g1, g2, g3)
          | none => none := rfl

/-- On a newline-free suffix, the lazy tail pattern `(.*?)(\d+)?$` always
matches: the lazy group can grow to the end of the string, where the
optional group matches empty and `$` holds. -/
theorem matchG2From_isSome_of_no_newline (cs : List Char) (h : '\n' ∉ cs) :
    (matchG2From cs).isSome = true := by
  induction cs with
  | nil => rfl
  | cons c rest ih =>
    rw [List.mem_cons, not_or] at h
    obtain ⟨hc, hrest⟩ := h
    unfold matchG2From
    cases hopt : matchOptDigitsEnd (c :: rest) with
    | some g3 => rfl
    | none =>
      have hcb : (c == '\n') = false := beq_eq_false_iff_ne.mpr (Ne.symm hc)
      simp only [hcb, Bool.false_eq_true, if_false]
      cases hrec : matchG2From rest with
      | some p =>
        obtain ⟨g2, g3⟩ := p
        rfl
      | none =>
        rw [hrec] at ih
        exact absurd (ih hrest) (by simp)

/-- On a newline-free suffix, the greedy remainder of `\s+` followed by the
tail pattern always matches. -/
theorem matchAfterSpaces_isSome_of_no_newline (cs : List Char) (h : '\n' ∉ cs) :
    (matchAfterSpaces cs).isSome = true := by
  induction cs with
  | nil => rfl
  | cons c rest ih =>
    have hrest : '\n' ∉ rest := fun hm => h (List.mem_cons_of_mem c hm)
    unfold matchAfterSpaces
    cases hps : pyIsSpace c with
    | true =>
      simp only [hps, if_true]
      cases hrec : matchAfterSpaces rest with
      | some r => rfl
      | none =>
        rw [hrec] at ih
        exact absurd (ih hrest) (by simp)
    | false =>
      simp only [hps, Bool.false_eq_true, if_false]
      exact matchG2From_isSome_of_no_newline (c :: rest) h

/-- On a newline-free string that contains a whitespace character, the full
pattern `^(.*?)\s+(.*?)(\d+)?$` matches. -/
theorem matchG1From_isSome_of_any_space (cs : List Char) (h : '\n' ∉ cs)
    (hs : cs.any pyIsSpace = true) : (matchG1From cs).isSome = true := by
  induction cs with
  | nil => simp at hs
  | cons c rest ih =>
    rw [List.mem_cons, not_or] at h
    obtain ⟨hc, hrest⟩ := h
    rw [matchG1From_cons, matchSpacePlus_cons]
    cases hps : pyIsSpace c with
    | true =>
      simp only [hps, if_true]
      have hsome := matchAfterSpaces_isSome_of_no_newline rest hrest
      cases hma : matchAfterSpaces rest with
      | some p =>
        obtain ⟨g2, g3⟩ := p
        rfl
      | none =>
        rw [hma] at hsome
        exact absurd hsome (by simp)
    | false =>
      rw [List.any_cons, hps, Bool.false_or] at hs
      have hcb : (c == '\n') = false := beq_eq_false_iff_ne.mpr (Ne.symm hc)
      simp only [hps, Bool.false_eq_true, if_false, hcb]
      have hsome := ih hrest hs
      cases hg1 : matchG1From rest with
      | some p =>
        obtain ⟨g1, g2, g3⟩ := p
        rfl
      | none =>
        rw [hg1] at hsome
        exact absurd hsome (by simp)

/-- Conversely, a successful match of the full pattern forces a whitespace
character to be present: the `\s+` separator is mandatory. -/
theorem any_space_of_matchG1From_isSome (cs : List Char)
    (h : (matchG1From cs).isSome = true) : cs.any pyIsSpace = true := by
  induction cs with
  | nil => rw [matchG1From_nil] at h; simp at h
  | cons c rest ih =>
    rw [List.any_cons]
    cases hps : pyIsSpace c with
    | true => rw [Bool.true_or]
    | false =>
      rw [Bool.false_or]
      apply ih
      rw [matchG1From_cons, matchSpacePlus_cons] at h
      simp only [hps, Bool.false_eq_true, if_false] at h
      cases hcb : (c == '\n') with
      | true => rw [hcb] at h; simp at h
      | false =>
        rw [hcb] at h
        simp only [Bool.false_eq_true, if_false] at h
        cases hg1 : matchG1From rest with
        | some p => rfl
        | none => rw [hg1] at h; simp [hg1] at h

/-- Claim C1 (amended): matching `RE_LINE` against a (newline-free) input
string succeeds exactly when the string contains at least one whitespace
character — the `\s+` separator is mandatory, so whitespace-free strings
(including the empty string) do not match; each of the three capture
groups can individually match empty content, as the input `" "` shows. -/
theorem claim1_re_line_matches_iff_whitespace :
    (∀ s : String, '\n' ∉ s.data →
      ((RE_LINE_search s).isSome = true ↔ s.data.any pyIsSpace = true)) ∧
    RE_LINE_search " " = some ("", "", none) := by
  constructor
  · intro s h
    constructor
    · intro hs
      apply any_space_of_matchG1From_isSome
      unfold RE_LINE_search at hs
      cases hg : matchG1From s.data with
      | some p => simp [hg]
      | none => rw [hg] at hs; simp at hs
    · intro hs
      unfold RE_LINE_search
      have hsome := matchG1From_isSome_of_any_space s.data h hs
      cases hg : matchG1From s.data with
      | some p =>
        obtain ⟨g1, g2, g3⟩ := p
        rfl
      | none =>
        rw [hg] at hsome
        exact absurd hsome (by simp)
  · decide

/-- Claim C1, witness: the concrete newline-free input `"a b"` contains a
space, hence matches. -/
theorem claim1_witness : (RE_LINE_search "a b").isSome = true :=
  (claim1_re_line_matches_iff_whitespace.1 "a b" (by decide)).mpr (by decide)

/-- Claim C1, counterexample to the claim as stated: the input `"Tc"`
contains no whitespace, so `RE_LINE` fails to match it — the pattern does
not match every input string. -/
theorem claim1_counterexample : RE_LINE_search "Tc" = none := by decide

/-- Claim C2 (amended): the row `"m moveto Begin new subpath 59"` is row 36
(zero-based) of the table, and the emitter produces for it exactly the
line consisting of a tab, the backtick-quoted name `m`, `: false,`, two
spaces, `//`, the index 36 right-justified to 3 columns, `: `, and the
middle text `moveto Begin new subpath ` (trailing separator space
retained, page number excluded). -/
theorem claim2_row_m_emitted_line :
    adobe_lines.getD 36 "" = "m moveto Begin new subpath 59" ∧
    emitLine 36 "m moveto Begin new subpath 59" =
      some "\t`m`: false,  //  36: moveto Begin new subpath " := by decide

/-- Claim C2, counterexample to the claim as stated: the row sits at index
36, not 41 (row 41 is the `Q` row), and neither index yields the claimed
line `` `m`: false,  //  41: moveto Begin new subpath ``. -/
theorem claim2_counterexample :
    adobe_lines.getD 41 "" = "Q grestore Restore graphics state 57" ∧
    adobe_lines.getD 36 "" = "m moveto Begin new subpath 59" ∧
    (emitLine 36 "m moveto Begin new subpath 59" ==
      some "`m`: false,  //  41: moveto Begin new subpath") = false ∧
    (emitLine 41 "Q grestore Restore graphics state 57" ==
      some "`m`: false,  //  41: moveto Begin new subpath") = false := by decide

/-- Claim C3 (amended): for every table row the emitter writes exactly one
line, namely a tab character followed by the backtick-quoted operator
name, a colon, `false,`, two spaces, `//`, the zero-based row index
right-justified to 3 columns, a colon, a space and the parsed middle
text; the output row order equals the table row order. -/
theorem claim3_rows_follow_template : emitMatchesTemplate = true := by decide

/-- Claim C3, counterexample to the claim as stated: the emitted line for
row 0 starts with a tab character, so it is not a line consisting of the
claimed parts alone (which would begin with the backtick-quoted name). -/
theorem claim3_counterexample :
    emitLine 0 (adobe_lines.getD 0 "") =
      some "\t`b`: false,  //   0: closepath, fill, stroke Close, fill, and stroke path using nonzero winding number rule " ∧
    ("\t`b`: false,  //   0: closepath, fill, stroke Close, fill, and stroke path using nonzero winding number rule " ==
      "`b`: false,  //   0: closepath, fill, stroke Close, fill, and stroke path using nonzero winding number rule ") = false := by decide

/-- Claim C4: every row of the shipped table matches `RE_LINE`, so the
group accesses of the emitter never fail on the shipped data. -/
theorem claim4_all_rows_match :
    (adobe_lines.all fun l => (RE_LINE_search l).isSome) = true := by decide

/-- Claim C5: for the table row about the `b` operator, the third capture
group (the page number) is the string `60`. -/
theorem claim5_page_number_60 :
    "b closepath, fill, stroke Close, fill, and stroke path using nonzero winding number rule 60"
      ∈ adobe_lines ∧
    RE_LINE_search
      "b closepath, fill, stroke Close, fill, and stroke path using nonzero winding number rule 60" =
      some ("b",
        "closepath, fill, stroke Close, fill, and stroke path using nonzero winding number rule ",
        some "60") := by decide

/-- Claim C6: for the table row `"Tc Set character spacing"`, which has no
trailing digits, the optional page-number group is absent. -/
theorem claim6_no_page_number :
    "Tc Set character spacing" ∈ adobe_lines ∧
    RE_LINE_search "Tc Set character spacing" =
      some ("Tc", "Set character spacing", none) := by decide

/-- Claim C7 (amended): the emitter writes exactly one line per table row,
and the total number of lines written to standard output equals the table
row count plus 3: the count line, the opening framing line and the
closing framing line. -/
theorem claim7_line_counts :
    (emitRows 0 adobe_lines).map List.length = some adobe_lines.length ∧
    programOutput.map List.length = some (adobe_lines.length + 3) := by decide

/-- Claim C7, counterexample to the claim as stated: the table has 73 rows
and the program writes 76 lines (the `%d lines` count line comes on top
of the opening and closing framing lines), and 76 is not 73 + 2. -/
theorem claim7_counterexample :
    programOutput.map List.length = some 76 ∧
    adobe_lines.length = 73 ∧
    ((76 : Nat) == 73 + 2) = false := by decide

/-- Claim C8: the program runs to completion deterministically with exit
code 0 — the run reaches the end of the module and produces its output;
the uncaught-exception path (modelled by `none`) is not taken. -/
theorem claim8_runs_to_completion : programOutput.isSome = true := by decide

/-- Claim C9: every row of the shipped table contains at least one
whitespace character, and under that precondition the mandatory `\s+` of
`RE_LINE` is satisfiable, so the match succeeds for every shipped row and
the emitter's use of the match object is safe. -/
theorem claim9_rows_have_whitespace :
    (adobe_lines.all fun l =>
      l.data.any pyIsSpace && (RE_LINE_search l).isSome) = true := by decide

/-- Claim C10: for every table row carrying a page number, the second
capture group keeps the whitespace that separated the description from
the page number, so both the middle text and the whole emitted line end
with a trailing space character. -/
theorem claim10_trailing_space :
    (adobe_lines.all fun l =>
      match RE_LINE_search l with
      | some (_, g2, some _) => g2.data.getLast? == some ' '
      | some (_, _, none) => true
      | none => false) = true ∧
    ((List.range adobe_lines.length).all fun i =>
      match emitLine i (adobe_lines.getD i ""), RE_LINE_search (adobe_lines.getD i "") with
      | some out, some (_, _, some _) => out.data.getLast? == some ' '
      | some _, some (_, _, none) => true
      | _, _ => false) = true := by decide

end OmniOperators
